import Mathlib

/-!
A verification development for a PDF batch-summarizing mailer.  The
program scans a directory for PDF files, extracts their text, asks a
chat-completion backend for a summary, and mails the summary with the
original file attached.  The two source modules are `pdf_summarizer.py`
(orchestrator, document processor, extractor, summarization client) and
`email_sender.py` (message composer and SMTP transport).

The development shallowly embeds the program: pure fragments become Lean
functions; interactions with the outside world (filesystem contents, the
PDF parsing library, the completion backend, the SMTP session) are passed
in explicitly as environment values describing what the external call
would have returned; Python exceptions caught by the code become `Option`
or `Except` values; machine strings are Lean `String`s and raw bytes are
`Fin 256` lists.
-/

/-- A raw byte, as read from a file or produced by UTF-8 encoding. -/
abbrev Byte := Fin 256

/-! ### Percent-encoding (`urllib.parse.quote` / `email.utils.encode_rfc2231`)

`email_sender.py` encodes attachment filenames twice: once through
`encode_rfc2231` (triggered by passing the tuple `(utf-8, lang, filename)`
to `add_header`), and once through `urllib.parse.quote(filename)`.  Both
are byte-level percent-encoders over the UTF-8 bytes of the name; they
differ only in the set of bytes left verbatim (`quote` keeps `/` by
default, `encode_rfc2231` encodes everything outside the always-safe
set). -/

/-- Upper-case hexadecimal digit, as emitted by Python's `quote`
(format `%{:02X}`); `n` is a value below 16. -/
def hexDigit (n : Nat) : Char :=
  if n < 10 then Char.ofNat (48 + n) else Char.ofNat (55 + n)

/-- Value of one hexadecimal digit character; accepts both cases, as
Python's `unquote` does.  `none` on a non-hex character. -/
def hexVal (c : Char) : Option (Fin 16) :=
  if h : 48 ≤ c.toNat ∧ c.toNat ≤ 57 then some ⟨c.toNat - 48, by omega⟩
  else if h : 65 ≤ c.toNat ∧ c.toNat ≤ 70 then some ⟨c.toNat - 55, by omega⟩
  else if h : 97 ≤ c.toNat ∧ c.toNat ≤ 102 then some ⟨c.toNat - 87, by omega⟩
  else none

/-- Python's `_ALWAYS_SAFE` byte set: ASCII letters, digits, and
`_`, `.`, `-`, `~`. -/
def alwaysSafeByte (b : Byte) : Bool :=
  (65 ≤ b.val && b.val ≤ 90) || (97 ≤ b.val && b.val ≤ 122) ||
  (48 ≤ b.val && b.val ≤ 57) ||
  b.val == 95 || b.val == 46 || b.val == 45 || b.val == 126

/-- The safe set of `urllib.parse.quote` with its default `safe` string,
which additionally keeps `/` (byte 47) verbatim. -/
def quoteSafeByte (b : Byte) : Bool :=
  alwaysSafeByte b || b.val == 47

/-- The three-character escape `%HH` of one byte. -/
def pctByte (b : Byte) : List Char :=
  [Char.ofNat 37, hexDigit (b.val / 16), hexDigit (b.val % 16)]

/-- Byte-level percent-encoder: safe bytes stay verbatim, everything else
becomes `%HH`.  This is the common core of `urllib.parse.quote` and of
`email.utils.encode_rfc2231`. -/
def quoteBytes (safe : Byte → Bool) : List Byte → List Char
  | [] => []
  | b :: bs => (if safe b then [Char.ofNat b.val] else pctByte b) ++ quoteBytes safe bs

/-- `urllib.parse.quote(s)` with the default safe set, over UTF-8 bytes. -/
def urlQuote (bs : List Byte) : List Char :=
  quoteBytes quoteSafeByte bs

/-- Percent-decoder: inverts `quoteBytes`.  `%HH` becomes the byte `HH`;
any other character stands for its own code point (fails on a code point
that is not a byte, or on a truncated or malformed escape). -/
def percentDecode : List Char → Option (List Byte)
  | [] => some []
  | c :: h1 :: h2 :: rest =>
    if c = Char.ofNat 37 then
      match hexVal h1, hexVal h2 with
      | some v1, some v2 =>
        (percentDecode rest).map (fun bs => ⟨v1.val * 16 + v2.val, by omega⟩ :: bs)
      | _, _ => none
    else
      if h : c.toNat < 256 then
        (percentDecode (h1 :: h2 :: rest)).map (fun bs => ⟨c.toNat, h⟩ :: bs)
      else none
  | c :: rest =>
    if c = Char.ofNat 37 then none
    else
      if h : c.toNat < 256 then (percentDecode rest).map (fun bs => ⟨c.toNat, h⟩ :: bs)
      else none

/-! ### Python strings

Python `str` values are sequences of Unicode code points; the embedding
represents them as `List Char` so that every string operation the program
performs is an executable structural function.  String literals enter
through `String.data`. -/

/-- A Python string: a list of Unicode code points. -/
abbrev PyStr := List Char

/-- Code points are below `0x110000`. -/
theorem char_toNat_lt (c : Char) : c.toNat < 1114112 := by
  have h := c.valid
  rcases h with h | ⟨h1, h2⟩
  · exact Nat.lt_trans h (by norm_num)
  · exact h2

/-- UTF-8 encoding of one code point (RFC 3629), as `str.encode` uses when
Python text crosses into the byte-level mail headers. -/
def utf8EncodeChar (c : Char) : List Byte :=
  if h : c.toNat < 128 then [⟨c.toNat, by omega⟩]
  else if h2 : c.toNat < 2048 then
    [⟨192 + c.toNat / 64, by omega⟩, ⟨128 + c.toNat % 64, by omega⟩]
  else if h3 : c.toNat < 65536 then
    [⟨224 + c.toNat / 4096, by omega⟩, ⟨128 + (c.toNat / 64) % 64, by omega⟩,
     ⟨128 + c.toNat % 64, by omega⟩]
  else
    [⟨240 + c.toNat / 262144, by have := char_toNat_lt c; omega⟩,
     ⟨128 + (c.toNat / 4096) % 64, by omega⟩, ⟨128 + (c.toNat / 64) % 64, by omega⟩,
     ⟨128 + c.toNat % 64, by omega⟩]

/-- UTF-8 bytes of a Python string. -/
def utf8Bytes (s : PyStr) : List Byte :=
  s.flatMap utf8EncodeChar

theorem utf8Bytes_append (a b : PyStr) :
    utf8Bytes (a ++ b) = utf8Bytes a ++ utf8Bytes b := by
  simp [utf8Bytes]

theorem hexVal_hexDigit : ∀ n : Fin 16, hexVal (hexDigit n.val) = some n := by
  decide

set_option maxRecDepth 65536 in
theorem safe_char_facts : ∀ b : Byte, (alwaysSafeByte b || b.val == 47) = true →
    (Char.ofNat b.val).toNat = b.val ∧ Char.ofNat b.val ≠ Char.ofNat 37 := by
  decide

/-- Decoding a percent escape prepends the escaped byte. -/
theorem percentDecode_pct (b : Byte) (cs : List Char) :
    percentDecode (pctByte b ++ cs) = (percentDecode cs).map (fun bs => b :: bs) := by
  have h1 := hexVal_hexDigit ⟨b.val / 16, by omega⟩
  have h2 := hexVal_hexDigit ⟨b.val % 16, by omega⟩
  simp only [pctByte, List.cons_append, List.nil_append]
  simp only [percentDecode, h1, h2, if_true]
  congr 1
  funext bs
  congr 1
  apply Fin.ext
  simp only [Fin.val_mk]
  omega

/-- Decoding a verbatim safe character prepends its byte. -/
theorem percentDecode_safe (b : Byte) (h : (alwaysSafeByte b || b.val == 47) = true)
    (cs : List Char) :
    percentDecode (Char.ofNat b.val :: cs) = (percentDecode cs).map (fun bs => b :: bs) := by
  obtain ⟨htn, hne⟩ := safe_char_facts b h
  cases cs with
  | nil =>
    simp only [percentDecode, if_neg hne, htn, dif_pos b.isLt, Fin.eta]
  | cons d ds =>
    cases ds with
    | nil =>
      simp only [percentDecode, if_neg hne, htn, dif_pos b.isLt, Fin.eta]
    | cons e es =>
      simp only [percentDecode, if_neg hne, htn, dif_pos b.isLt, Fin.eta]

/-- Round trip: percent-decoding inverts the byte-level percent-encoder,
for any safe set between the empty set and the `quote` default. -/
theorem percentDecode_quoteBytes (safe : Byte → Bool)
    (hsafe : ∀ b, safe b → alwaysSafeByte b || b.val == 47)
    (bs : List Byte) :
    percentDecode (quoteBytes safe bs) = some bs := by
  induction bs with
  | nil => rfl
  | cons b rest ih =>
    by_cases h : safe b
    · simp only [quoteBytes, if_pos h, List.cons_append, List.nil_append]
      rw [percentDecode_safe b (hsafe b h), ih]
      rfl
    · simp only [quoteBytes, if_neg h]
      rw [percentDecode_pct, ih]
      rfl

/-! ### The RFC 2231 extended-parameter form

Passing the tuple `(utf-8, lang, filename)` as the `filename` parameter of
`Message.add_header` makes the email library emit the parameter under the
name `filename*`, valued `utf-8''<percent-encoded bytes>` (the result of
`email.utils.encode_rfc2231(filename, utf-8, lang)` with empty language). -/

/-- The apostrophe delimiter of an RFC 2231 extended value. -/
def rfcDelim : Char := Char.ofNat 39

/-- `email.utils.encode_rfc2231(filename, utf-8, empty language)`:
the charset tag, two delimiters, then the fully percent-encoded UTF-8
bytes (safe set empty apart from `_ALWAYS_SAFE`). -/
def rfc2231Encode (bs : List Byte) : List Char :=
  ['u', 't', 'f', '-', '8', rfcDelim, rfcDelim] ++ quoteBytes alwaysSafeByte bs

/-- Skip to just after the next RFC 2231 delimiter. -/
def dropThroughDelim : List Char → Option (List Char)
  | [] => none
  | c :: cs => if c = rfcDelim then some cs else dropThroughDelim cs

/-- Decoder for an RFC 2231 extended value: drop the charset and language
fields, then percent-decode the remainder back to raw bytes. -/
def decodeRfc2231 (v : List Char) : Option (List Byte) :=
  match dropThroughDelim v with
  | none => none
  | some r1 =>
    match dropThroughDelim r1 with
    | none => none
    | some r2 => percentDecode r2

/-- Round trip: the RFC 2231 decoder recovers the exact filename bytes the
encoder was given. -/
theorem decodeRfc2231_rfc2231Encode (bs : List Byte) :
    decodeRfc2231 (rfc2231Encode bs) = some bs := by
  have h : decodeRfc2231 (rfc2231Encode bs) = percentDecode (quoteBytes alwaysSafeByte bs) := by
    simp [rfc2231Encode, decodeRfc2231, dropThroughDelim, rfcDelim]
  rw [h]
  exact percentDecode_quoteBytes alwaysSafeByte (fun b hb => by simp [hb]) bs

/-- Round trip for `urllib.parse.quote` with its default safe set. -/
theorem percentDecode_urlQuote (bs : List Byte) :
    percentDecode (urlQuote bs) = some bs := by
  exact percentDecode_quoteBytes quoteSafeByte (fun b hb => hb) bs

/-! ### Base64 (`email.encoders.encode_base64`)

The composer base64-encodes every attachment payload.  The embedding
models the standard base64 alphabet with `=` padding; the 76-column line
wrapping the MIME encoder inserts is elided (it carries no information
and every decoder strips it). -/

/-- The base64 alphabet. -/
def b64Char (n : Fin 64) : Char :=
  if n.val < 26 then Char.ofNat (65 + n.val)
  else if n.val < 52 then Char.ofNat (97 + (n.val - 26))
  else if n.val < 62 then Char.ofNat (48 + (n.val - 52))
  else if n.val = 62 then Char.ofNat 43
  else Char.ofNat 47

/-- Base64-encode a byte sequence, three bytes to four characters, with
`=` padding on a short final group. -/
def base64Encode : List Byte → List Char
  | [] => []
  | [a] =>
    [b64Char ⟨a.val / 4, by omega⟩, b64Char ⟨a.val % 4 * 16, by omega⟩,
     Char.ofNat 61, Char.ofNat 61]
  | [a, b] =>
    [b64Char ⟨a.val / 4, by omega⟩, b64Char ⟨a.val % 4 * 16 + b.val / 16, by omega⟩,
     b64Char ⟨b.val % 16 * 4, by omega⟩, Char.ofNat 61]
  | a :: b :: c :: rest =>
    [b64Char ⟨a.val / 4, by omega⟩, b64Char ⟨a.val % 4 * 16 + b.val / 16, by omega⟩,
     b64Char ⟨b.val % 16 * 4 + c.val / 64, by omega⟩, b64Char ⟨c.val % 64, by omega⟩] ++
    base64Encode rest

/-- Value of one base64 alphabet character. -/
def b64Val (c : Char) : Option (Fin 64) :=
  if h : 65 ≤ c.toNat ∧ c.toNat ≤ 90 then some ⟨c.toNat - 65, by omega⟩
  else if h : 97 ≤ c.toNat ∧ c.toNat ≤ 122 then some ⟨c.toNat - 97 + 26, by omega⟩
  else if h : 48 ≤ c.toNat ∧ c.toNat ≤ 57 then some ⟨c.toNat - 48 + 52, by omega⟩
  else if c = Char.ofNat 43 then some ⟨62, by omega⟩
  else if c = Char.ofNat 47 then some ⟨63, by omega⟩
  else none

/-- Base64 decoder, inverting `base64Encode` (strict four-character
groups, `=` padding only in the final group). -/
def base64Decode : List Char → Option (List Byte)
  | [] => some []
  | c1 :: c2 :: c3 :: c4 :: rest =>
    match b64Val c1, b64Val c2 with
    | some s1, some s2 =>
      if c3 = Char.ofNat 61 then
        if c4 = Char.ofNat 61 ∧ rest = [] then
          some [⟨s1.val * 4 + s2.val / 16, by omega⟩]
        else none
      else
        match b64Val c3 with
        | some s3 =>
          if c4 = Char.ofNat 61 then
            if rest = [] then
              some [⟨s1.val * 4 + s2.val / 16, by omega⟩,
                    ⟨s2.val % 16 * 16 + s3.val / 4, by omega⟩]
            else none
          else
            match b64Val c4 with
            | some s4 =>
              (base64Decode rest).map (fun bs =>
                ⟨s1.val * 4 + s2.val / 16, by omega⟩ ::
                ⟨s2.val % 16 * 16 + s3.val / 4, by omega⟩ ::
                ⟨s3.val % 4 * 64 + s4.val, by omega⟩ :: bs)
            | none => none
        | none => none
    | _, _ => none
  | _ => none

set_option maxRecDepth 65536 in
theorem b64Val_b64Char : ∀ s : Fin 64, b64Val (b64Char s) = some s := by
  decide

set_option maxRecDepth 65536 in
theorem b64Char_ne_pad : ∀ s : Fin 64, ¬(b64Char s = Char.ofNat 61) := by
  decide

/-- Round trip: the base64 decoder recovers the exact bytes the encoder
was given. -/
theorem base64Decode_base64Encode (bs : List Byte) :
    base64Decode (base64Encode bs) = some bs := by
  induction bs using base64Encode.induct with
  | case1 => rfl
  | case2 a =>
    simp [base64Encode, base64Decode, b64Val_b64Char, Fin.ext_iff]
    omega
  | case3 a b =>
    simp [base64Encode, base64Decode, b64Val_b64Char, b64Char_ne_pad, Fin.ext_iff]
    omega
  | case4 a b c rest ih =>
    simp [base64Encode, base64Decode, b64Val_b64Char, b64Char_ne_pad, ih, Fin.ext_iff]
    omega

/-! ### Python string operations

Only the operations the program performs.  Case mapping is modelled on
ASCII (Lean's `Char.toLower`), which covers the only case-sensitive
comparison the program makes, the `.pdf` suffix test; `str.strip` is
modelled on ASCII whitespace. -/

/-- `str.lower` (ASCII case mapping). -/
def pyLower (s : PyStr) : PyStr :=
  s.map Char.toLower

/-- `str.endswith`. -/
def pyEndsWith (s suffixStr : PyStr) : Bool :=
  decide (suffixStr.length ≤ s.length) && s.drop (s.length - suffixStr.length) == suffixStr

/-- ASCII whitespace, as stripped by `str.strip()`. -/
def isSpaceChar (c : Char) : Bool :=
  c.toNat == 32 || c.toNat == 9 || c.toNat == 10 ||
  c.toNat == 13 || c.toNat == 11 || c.toNat == 12

/-- `str.strip()` with no argument. -/
def pyStrip (s : PyStr) : PyStr :=
  ((s.dropWhile isSpaceChar).reverse.dropWhile isSpaceChar).reverse

/-- `os.path.basename` (POSIX): the part after the last slash. -/
def basename (p : PyStr) : PyStr :=
  p.foldl (fun acc c => if c = Char.ofNat 47 then [] else acc ++ [c]) []

/-- `sep.join(parts)`. -/
def pyJoin (sep : PyStr) : List PyStr → PyStr
  | [] => []
  | [t] => t
  | t :: ts => t ++ sep ++ pyJoin sep ts

/-! ### `email_sender.py` — message composition and SMTP transport

The filesystem is passed in as a partial map from path to file bytes
(`none` models `os.path.exists` returning false), and the SMTP exchange
of the `try` block is passed in as the outcome it would have had. -/

/-- One composed attachment part, with the Content-Disposition laid down
by `add_header` at lines 79-85: the RFC 2231 `filename*` parameter
(produced by the `(utf-8, lang, value)` tuple) and then the nonstandard
`filename-ascii` fallback parameter (`add_header` rewrites the `_` of the
keyword to `-`), valued `urllib.parse.quote(filename)`. -/
structure AttachPart where
  maintype : PyStr
  subtype : PyStr
  payload : List Char
  dispType : PyStr
  dispParams : List (PyStr × List Char)
deriving DecidableEq

/-- Composition of one attachment part (`send_email` lines 62-86): MIME
type chosen by the case-insensitive `.pdf` test on the basename, payload
base64-encoded, disposition as above. -/
def mkAttachPart (file_path : PyStr) (contents : List Byte) : AttachPart :=
  let filename := basename file_path
  { maintype := "application".data
  , subtype := if pyEndsWith (pyLower filename) ".pdf".data
               then "pdf".data else "octet-stream".data
  , payload := base64Encode contents
  , dispType := "attachment".data
  , dispParams :=
      [("filename*".data, rfc2231Encode (utf8Bytes filename)),
       ("filename-ascii".data, urlQuote (utf8Bytes filename))] }

/-- The multipart message assembled in `send_email` lines 52-88. -/
structure ComposedMessage where
  fromHeader : PyStr
  toHeader : PyStr
  subject : PyStr
  bodyHtml : PyStr
  parts : List AttachPart
deriving DecidableEq

/-- Message assembly: headers, HTML body part, then one part per
attachment path that exists on the filesystem; a missing path is skipped
with a warning and composition continues (lines 61-88). -/
def buildMessage (fs : PyStr → Option (List Byte)) (sender : PyStr)
    (receiver_emails : List PyStr) (subject body : PyStr)
    (attachments : Option (List PyStr)) : ComposedMessage :=
  { fromHeader := sender
  , toHeader := pyJoin ", ".data receiver_emails
  , subject := subject
  , bodyHtml := body
  , parts :=
      match attachments with
      | none => []
      | some paths => paths.filterMap (fun p => (fs p).map (mkAttachPart p)) }

/-- What the SMTP exchange of the `try` block (lines 91-99) would do:
run to completion, or raise one of the exception classes the `except`
clauses distinguish. -/
inductive SmtpOutcome
  | completed
  | authException
  | smtpException
  | otherException
deriving DecidableEq

/-- Classification of a delivery attempt, per the three `except` clauses
at lines 105-113. -/
inductive SendResult
  | success
  | authFailure
  | protocolFailure
  | genericFailure
deriving DecidableEq

/-- The kind of SMTP session the code opens. -/
inductive SessionKind
  | plainUpgradedStartTls
  | implicitTls
deriving DecidableEq

/-- `except SMTPAuthenticationError` before `except SMTPException` before
`except Exception`; a completed exchange returns `True`. -/
def classifySmtp : SmtpOutcome → SendResult
  | SmtpOutcome.completed => SendResult.success
  | SmtpOutcome.authException => SendResult.authFailure
  | SmtpOutcome.smtpException => SendResult.protocolFailure
  | SmtpOutcome.otherException => SendResult.genericFailure

/-- Constructor arguments of `EmailSender.__init__`. -/
structure SenderCfg where
  smtp_server : PyStr
  smtp_port : Nat
  sender_email : PyStr
  sender_password : PyStr
  use_tls : Bool

/-- Observable behaviour of one `EmailSender.send_email` call: the
composed message, the SMTP sessions opened, who the message went to, the
failure classification, and the boolean the caller receives. -/
structure SendTrace where
  message : ComposedMessage
  sessions : List SessionKind
  transmittedTo : List PyStr
  result : SendResult
  returned : Bool

/-- `EmailSender.send_email` (lines 37-113): composes the message, opens
exactly one session — plaintext upgraded by `starttls()` when `use_tls`,
else `SMTP_SSL` — logs in, calls `send_message`, and converts every
exception into a `False` return via the classification above. -/
def EmailSender.send_email (cfg : SenderCfg) (fs : PyStr → Option (List Byte))
    (outcome : SmtpOutcome) (receiver_emails : List PyStr) (subject body : PyStr)
    (attachments : Option (List PyStr)) : SendTrace :=
  { message := buildMessage fs cfg.sender_email receiver_emails subject body attachments
  , sessions := [if cfg.use_tls then SessionKind.plainUpgradedStartTls
                 else SessionKind.implicitTls]
  , transmittedTo :=
      match outcome with
      | SmtpOutcome.completed => receiver_emails
      | _ => []
  , result := classifySmtp outcome
  , returned :=
      match outcome with
      | SmtpOutcome.completed => true
      | _ => false }

/-- `EmailSender.send_simple_email` (lines 115-126): delegates to
`send_email` with `None` attachments. -/
def EmailSender.send_simple_email (cfg : SenderCfg) (fs : PyStr → Option (List Byte))
    (outcome : SmtpOutcome) (receiver_emails : List PyStr)
    (subject body : PyStr) : SendTrace :=
  EmailSender.send_email cfg fs outcome receiver_emails subject body none

/-! ### `pdf_summarizer.py` — extractor, summarization client, document
processor, batch orchestrator

External collaborators appear as environment values: the PDF library's
per-page `extract_text()` results (or `none` when `PdfReader` raises),
the completion backend's response (or `none` when the API call raises),
the filesystem, and the SMTP outcome. -/

/-- Usage metadata the backend reports (lines 171-176). -/
structure ModelInfo where
  model : PyStr
  prompt_tokens : Nat
  completion_tokens : Nat
  total_tokens : Nat
deriving DecidableEq

/-- The page loop of `extract_text_from_pdf` (lines 123-127): walk the
first `n` pages in order, keeping each page's text when it is truthy
(nonempty), with no placeholder for a page that yields nothing. -/
def collectPages : List PyStr → Nat → List PyStr
  | _, 0 => []
  | [], _ + 1 => []
  | t :: rest, n + 1 =>
    if t.isEmpty then collectPages rest n else t :: collectPages rest n

/-- `extract_text_from_pdf` (lines 99-135): reads
`min(total_pages, max_pages)` pages, joins the kept page texts with a
blank line, and returns the empty string when the PDF library is missing
or `PdfReader`/the page loop raises (both folded into `parsed = none`). -/
def extract_text_from_pdf (parsed : Option (List PyStr)) (max_pages : Nat) : PyStr :=
  match parsed with
  | none => []
  | some pages =>
    let pages_to_read := min pages.length max_pages
    pyJoin "\n\n".data (collectPages pages pages_to_read)

/-- `summarize_text` (lines 137-186), paired with a flag recording
whether the completions endpoint was invoked.  `None` without any network
call when no client is configured or when the text is empty or strips to
fewer than 100 characters; otherwise exactly one backend call, whose
raised errors (all caught at line 184) appear as `backend = none`. -/
def summarize_text (clientConfigured : Bool) (backend : Option (PyStr × ModelInfo))
    (text : PyStr) : Option (PyStr × ModelInfo) × Bool :=
  if !clientConfigured then (none, false)
  else if text.isEmpty || decide ((pyStrip text).length < 100) then (none, false)
  else (backend, true)

/-- `summary.replace(chr(10), <br>)` (line 240). -/
def newlineToBr (s : PyStr) : PyStr :=
  s.flatMap (fun c => if c = Char.ofNat 10 then "<br>".data else [c])

/-- `create_email_body` (lines 188-255).  Its first line calls
`os.path.getsize(pdf_path)`, which raises `OSError` when the file has
vanished; nothing in `process_pdf` catches that, so the embedding
surfaces it as `Except.error`.  The HTML is abstracted to the
interpolated data that survives verification: the filename and the
summary with newlines turned into `<br>`; the size/timestamp/token-count
renderings (float and locale formatting) decide no claim and are
elided. -/
def create_email_body (filename : PyStr) (summary : PyStr)
    (getsizeResult : Option Nat) : Except PyStr PyStr :=
  match getsizeResult with
  | none => Except.error "OSError".data
  | some _ =>
    Except.ok ("<html>".data ++ filename ++ newlineToBr summary ++ "</html>".data)

/-- One token of the configured `subject_template`, as `str.format` sees
it: literal text or a replacement field naming a keyword. -/
inductive TemplateTok
  | lit (s : PyStr)
  | field (name : PyStr)
deriving DecidableEq

/-- `self.subject_template.format(filename=filename)` (line 288): fields
named `filename` are substituted; any other field name raises `KeyError`,
which `process_pdf` does not catch. -/
def formatSubject (tmpl : List TemplateTok) (filename : PyStr) : Except PyStr PyStr :=
  match tmpl with
  | [] => Except.ok []
  | TemplateTok.lit s :: rest => (formatSubject rest filename).map (fun t => s ++ t)
  | TemplateTok.field n :: rest =>
    if n = "filename".data then (formatSubject rest filename).map (fun t => filename ++ t)
    else Except.error ("KeyError: ".data ++ n)

/-- Environment of one `process_pdf` invocation: the document path, what
each external collaborator would return, and the summarizer state built
by `PDFSummarizer.__init__`. -/
structure ProcEnv where
  pdf_path : PyStr
  parsed : Option (List PyStr)
  clientConfigured : Bool
  backend : Option (PyStr × ModelInfo)
  emailSenderCfg : Option SenderCfg
  receiver_emails : List PyStr
  subject_template : List TemplateTok
  getsizeResult : Option Nat
  fs : PyStr → Option (List Byte)
  smtp : SmtpOutcome

/-- `process_pdf` (lines 257-307).  Extraction failure and summarization
failure return `False`; when mail is enabled, configured and addressed,
the subject is formatted, the body composed and the mail sent, returning
the transport boolean; otherwise the summary is printed and `True`
returned.  Exceptions from subject formatting or body composition
propagate out (there is no `try` in this function). -/
def process_pdf (env : ProcEnv) (send_email : Bool) : Except PyStr Bool :=
  let filename := basename env.pdf_path
  let text := extract_text_from_pdf env.parsed 50
  if text.isEmpty then Except.ok false
  else
    match (summarize_text env.clientConfigured env.backend text).1 with
    | none => Except.ok false
    | some (summary, _model_info) =>
      match env.emailSenderCfg, send_email && !env.receiver_emails.isEmpty with
      | some cfg, true =>
        match formatSubject env.subject_template filename with
        | Except.error e => Except.error e
        | Except.ok subject =>
          match create_email_body filename summary env.getsizeResult with
          | Except.error e => Except.error e
          | Except.ok body =>
            Except.ok (EmailSender.send_email cfg env.fs env.smtp env.receiver_emails
              subject body (some [env.pdf_path])).returned
      | _, _ => Except.ok true

/-- Whether a `process_pdf` invocation reaches the completions endpoint:
only `summarize_text` talks to the backend, and only after the
empty-text guard at line 274. -/
def processCallsBackend (env : ProcEnv) : Bool :=
  let text := extract_text_from_pdf env.parsed 50
  if text.isEmpty then false
  else (summarize_text env.clientConfigured env.backend text).2

/-- The statistics dictionary of `scan_and_process_pdfs` (line 342). -/
structure BatchStats where
  total : Nat
  success : Nat
  failed : Nat
deriving DecidableEq

/-- Result of one `process_pdf` call as the orchestrator's `try` at
lines 347-355 sees it. -/
inductive DocOutcome
  | ok
  | failedDoc
  | raised
deriving DecidableEq

/-- The loop body (lines 347-355): a `True` return increments `success`,
a `False` return increments `failed`, and a raised exception is caught
and increments `failed`. -/
def stepStats (s : BatchStats) (o : DocOutcome) : BatchStats :=
  match o with
  | DocOutcome.ok => { s with success := s.success + 1 }
  | DocOutcome.failedDoc => { s with failed := s.failed + 1 }
  | DocOutcome.raised => { s with failed := s.failed + 1 }

/-- The whole processing loop, strictly sequential. -/
def loopStats (init : BatchStats) (os : List DocOutcome) : BatchStats :=
  os.foldl stepStats init

/-- A `process_pdf` result as seen through the orchestrator's
`try`/`except`. -/
def outcomeOfResult (r : Except PyStr Bool) : DocOutcome :=
  match r with
  | Except.ok true => DocOutcome.ok
  | Except.ok false => DocOutcome.failedDoc
  | Except.error _ => DocOutcome.raised

/-- Discovery (lines 324-328): `os.walk` is abstracted by its traversal
order, a list of (directory, file name) pairs; a file is kept when its
name lower-cased ends in `.pdf`, and joined to its directory. -/
def discoveredPdfs (walkFiles : List (PyStr × PyStr)) : List PyStr :=
  (walkFiles.filter (fun rf => pyEndsWith (pyLower rf.2) ".pdf".data)).map
    (fun rf => rf.1 ++ "/".data ++ rf.2)

/-- The Python slice `pdf_files[:n]` for an `int` bound: a nonnegative
bound takes the first `n` entries, a negative bound counts from the
end. -/
def pySlice (files : List PyStr) (n : Int) : List PyStr :=
  if 0 ≤ n then files.take n.toNat
  else files.take ((files.length : Int) + n).toNat

/-- The cap (lines 337-339): the slice is applied only inside
`if max_files:`, so it is skipped when `max_files` is `None` — and also
when it is `0`, which Python truthiness treats the same way. -/
def capFiles (max_files : Option Int) (files : List PyStr) : List PyStr :=
  match max_files with
  | none => files
  | some n => if n = 0 then files else pySlice files n

/-- `scan_and_process_pdfs` (lines 309-369): discover, early-return zero
statistics on an empty discovery, cap, then run the loop; `outcome` gives
each `process_pdf` call's result by path.  The inter-document
`time.sleep(2)` pacing is a pure delay and is elided. -/
def scan_and_process_pdfs (walkFiles : List (PyStr × PyStr))
    (outcome : PyStr → DocOutcome) (max_files : Option Int) : BatchStats :=
  let pdf_files := discoveredPdfs walkFiles
  if pdf_files.isEmpty then { total := 0, success := 0, failed := 0 }
  else
    let capped := capFiles max_files pdf_files
    loopStats { total := capped.length, success := 0, failed := 0 } (capped.map outcome)

/-- The configuration keys the startup path reads, `none` for a missing
key; Python truthiness also discounts an empty string. -/
structure AppConfig where
  api_key : Option PyStr
  endpoint : Option PyStr
  smtp_server : Option PyStr
  sender_email : Option PyStr
  sender_password : Option PyStr

/-- Python truthiness of an optional string setting. -/
def pyTruthy (v : Option PyStr) : Bool :=
  match v with
  | none => false
  | some s => !s.isEmpty

/-- The startup gate of `main` (lines 436-444): the batch is reached only
when the configuration loads and `azure_openai.api_key` is truthy — that
is the only required-setting check `main` performs. -/
def mainRunsBatch (configLoaded : Bool) (cfg : AppConfig) : Bool :=
  configLoaded && pyTruthy cfg.api_key

/-- `PDFSummarizer.__init__` lines 86-97: the mailer is constructed only
when server, sender address and password are all truthy; otherwise
`self.email_sender` is `None`, a warning is printed, and startup
continues. -/
def emailSenderConfigured (cfg : AppConfig) : Bool :=
  pyTruthy cfg.smtp_server && pyTruthy cfg.sender_email && pyTruthy cfg.sender_password

/-! ### Helper lemmas -/

/-- Each loop iteration adds exactly one to the `success + failed` sum. -/
theorem stepStats_sum (s : BatchStats) (o : DocOutcome) :
    (stepStats s o).success + (stepStats s o).failed = s.success + s.failed + 1 := by
  cases o <;> simp [stepStats] <;> omega

theorem stepStats_total (s : BatchStats) (o : DocOutcome) :
    (stepStats s o).total = s.total := by
  cases o <;> simp [stepStats]

theorem loopStats_sum (os : List DocOutcome) (init : BatchStats) :
    (loopStats init os).success + (loopStats init os).failed =
      init.success + init.failed + os.length := by
  induction os generalizing init with
  | nil => simp [loopStats]
  | cons o rest ih =>
    have h := ih (stepStats init o)
    simp only [loopStats, List.foldl_cons] at h ⊢
    rw [h, stepStats_sum]
    simp
    omega

theorem loopStats_total (os : List DocOutcome) (init : BatchStats) :
    (loopStats init os).total = init.total := by
  induction os generalizing init with
  | nil => simp [loopStats]
  | cons o rest ih =>
    have h := ih (stepStats init o)
    simp only [loopStats, List.foldl_cons] at h ⊢
    rw [h, stepStats_total]

/-- The page loop keeps exactly the nonempty texts of the first `n`
pages, in order. -/
theorem collectPages_eq_filter_take (pages : List PyStr) (n : Nat) :
    collectPages pages n = (pages.take n).filter (fun t => !t.isEmpty) := by
  induction pages generalizing n with
  | nil => cases n <;> simp [collectPages]
  | cons t rest ih =>
    cases n with
    | zero => simp [collectPages]
    | succ m =>
      by_cases h : t.isEmpty
      · simp [collectPages, h, ih]
      · simp [collectPages, h, ih]

/-- In a duplicate-free list, a member is counted exactly once. -/
theorem count_eq_one_of_nodup_mem {α : Type} [BEq α] [LawfulBEq α] {l : List α} {a : α}
    (hnd : l.Nodup) (h : a ∈ l) : l.count a = 1 := by
  induction l with
  | nil => cases h
  | cons x xs ih =>
    rw [List.count_cons]
    rcases List.mem_cons.mp h with rfl | hmem
    · have hx : xs.count a = 0 := by
        rw [List.count_eq_zero]
        exact (List.nodup_cons.mp hnd).1
      simp [hx]
    · have hxa : x ∉ xs := (List.nodup_cons.mp hnd).1
      have hne : ¬(x == a) = true := by
        intro hc
        cases eq_of_beq hc
        exact hxa hmem
      rw [ih (List.nodup_cons.mp hnd).2 hmem, if_neg hne]

/-- Subject formatting succeeds exactly when every replacement field is
named `filename`. -/
theorem formatSubject_ok (tmpl : List TemplateTok) (filename : PyStr)
    (h : ∀ n, TemplateTok.field n ∈ tmpl → n = "filename".data) :
    ∃ out, formatSubject tmpl filename = Except.ok out := by
  induction tmpl with
  | nil => exact ⟨[], rfl⟩
  | cons tok rest ih =>
    obtain ⟨out, hout⟩ := ih (fun n hn => h n (List.mem_cons_of_mem _ hn))
    cases tok with
    | lit s =>
      exact ⟨s ++ out, by simp [formatSubject, hout, Except.map]⟩
    | field n =>
      have hn : n = "filename".data := h n (List.mem_cons_self _ _)
      exact ⟨filename ++ out, by simp [formatSubject, hn, hout, Except.map]⟩

/-! ### Claim theorems -/

/-- C1: after every run of `scan_and_process_pdfs`, over any walk and any
mixture of per-document outcomes, the returned statistics satisfy
`total = success + failed`; and the loop body moves exactly one of
`success`/`failed` up by exactly one per processed document, leaving the
other counter and `total` unchanged — so the counters only ever grow. -/
theorem scan_stats_invariant (walkFiles : List (PyStr × PyStr))
    (outcome : PyStr → DocOutcome) (max_files : Option Int) :
    ((scan_and_process_pdfs walkFiles outcome max_files).total =
      (scan_and_process_pdfs walkFiles outcome max_files).success +
      (scan_and_process_pdfs walkFiles outcome max_files).failed) ∧
    (∀ s o, stepStats s o = { s with success := s.success + 1 } ∨
            stepStats s o = { s with failed := s.failed + 1 }) := by
  constructor
  · unfold scan_and_process_pdfs
    by_cases h : (discoveredPdfs walkFiles).isEmpty
    · simp [h]
    · simp only [h, if_false, Bool.false_eq_true]
      rw [loopStats_total, loopStats_sum]
      simp
  · intro s o
    cases o
    · exact Or.inl rfl
    · exact Or.inr rfl
    · exact Or.inr rfl

/-- C2 counterexample: with a supplied cap of `0` and one matching file,
the batch still processes that file (`total = 1`), because Python's
`if max_files:` treats `0` as absent — refuting "for every supplied cap
value N, at most N documents are processed". -/
theorem scan_cap_zero_counterexample :
    ¬((scan_and_process_pdfs [("d".data, "a.pdf".data)]
        (fun _ => DocOutcome.ok) (some 0)).total ≤ 0) := by
  decide

/-- C2 (amended: the cap bound holds for every positive cap value; a cap
of `0` is ignored by Python truthiness): with `max_files = N ≥ 1` at most
`N` documents are processed even when more exist; with no cap, every
file whose name ends in `.pdf` case-insensitively is processed exactly
once (given the walked paths are distinct, as filesystem paths are); an
empty discovery yields `{total := 0, success := 0, failed := 0}` under
any cap and is not an error. -/
theorem scan_cap_and_discovery (walkFiles : List (PyStr × PyStr))
    (outcome : PyStr → DocOutcome) :
    (∀ N : Int, 1 ≤ N →
      ((scan_and_process_pdfs walkFiles outcome (some N)).total : Int) ≤ N) ∧
    ((scan_and_process_pdfs walkFiles outcome none).total =
        (discoveredPdfs walkFiles).length ∧
     ((discoveredPdfs walkFiles).Nodup → ∀ rf ∈ walkFiles,
        pyEndsWith (pyLower rf.2) ".pdf".data →
        (capFiles none (discoveredPdfs walkFiles)).count
          (rf.1 ++ "/".data ++ rf.2) = 1)) ∧
    (∀ max_files, discoveredPdfs walkFiles = [] →
      scan_and_process_pdfs walkFiles outcome max_files =
        { total := 0, success := 0, failed := 0 }) := by
  refine ⟨?_, ⟨?_, ?_⟩, ?_⟩
  · intro N hN
    unfold scan_and_process_pdfs
    by_cases h : (discoveredPdfs walkFiles).isEmpty
    · simp [h]; omega
    · simp only [h, if_false, Bool.false_eq_true]
      rw [loopStats_total]
      simp only [capFiles]
      rw [if_neg (by omega)]
      unfold pySlice
      rw [if_pos (by omega)]
      have hlen := List.length_take_le N.toNat (discoveredPdfs walkFiles)
      omega
  · unfold scan_and_process_pdfs
    by_cases h : (discoveredPdfs walkFiles).isEmpty
    · simp [h]
      rw [List.isEmpty_iff] at h
      simp [h]
    · simp only [h, if_false, Bool.false_eq_true]
      rw [loopStats_total]
      simp [capFiles]
  · intro hnd rf hmem hpdf
    simp only [capFiles]
    apply count_eq_one_of_nodup_mem hnd
    unfold discoveredPdfs
    exact List.mem_map_of_mem _ (List.mem_filter_of_mem hmem hpdf)
  · intro mf h
    unfold scan_and_process_pdfs
    simp [h]

/-- C2 witness: the amended theorem at concrete inputs — three files, a
cap of 2, and the exactly-once property for a one-file walk. -/
theorem scan_cap_and_discovery_witness :
    ((scan_and_process_pdfs
        [("d".data, "a.pdf".data), ("d".data, "b.PDF".data), ("d".data, "c.pdf".data)]
        (fun _ => DocOutcome.ok) (some 2)).total : Int) ≤ 2 ∧
    (capFiles none (discoveredPdfs [("d".data, "a.pdf".data)])).count
      ("d".data ++ "/".data ++ "a.pdf".data) = 1 :=
  ⟨(scan_cap_and_discovery _ _).1 2 (by decide),
   (scan_cap_and_discovery [("d".data, "a.pdf".data)] (fun _ => DocOutcome.ok)).2.1.2
     (by decide) ("d".data, "a.pdf".data) (by decide) (by decide)⟩

/-- A fully configured environment (parsable 100-character document,
configured client and mailer, one recipient) whose subject template
contains a replacement field other than `filename` — a value the operator
can set freely in `config.toml`. -/
def fieldDateEnv : ProcEnv :=
  { pdf_path := "d/r.pdf".data
  , parsed := some [List.replicate 100 'a']
  , clientConfigured := true
  , backend := some ("sum".data,
      { model := "m".data, prompt_tokens := 1, completion_tokens := 1, total_tokens := 2 })
  , emailSenderCfg := some
      { smtp_server := "s".data, smtp_port := 587, sender_email := "a@b".data
      , sender_password := "p".data, use_tls := true }
  , receiver_emails := ["r@c".data]
  , subject_template := [TemplateTok.field "date".data]
  , getsizeResult := some 1
  , fs := fun _ => none
  , smtp := SmtpOutcome.completed }

/-- The same environment with a well-formed subject template. -/
def goodTemplateEnv : ProcEnv :=
  { fieldDateEnv with
      subject_template := [TemplateTok.lit "S: ".data, TemplateTok.field "filename".data] }

/-- C3 counterexample: `process_pdf` has no `try`; with a subject template
containing the field `{date}`, `str.format(filename=...)` raises
`KeyError` and the exception escapes the Processor — the caller does not
receive a boolean. -/
theorem process_pdf_raises_counterexample :
    process_pdf fieldDateEnv true = Except.error ("KeyError: ".data ++ "date".data) := rfl

/-- C3 (amended: a single `process_pdf` invocation returns a boolean
outcome whenever subject formatting and body composition do not raise —
extraction, summarization and transport failures are all converted to
`False` — but a `KeyError` from a subject-template field other than
`filename`, or an `OSError` from `os.path.getsize`, escapes the Processor;
such an escaped exception is caught by the Orchestrator's per-document
`try`, counted as a failure, and halts only that document). -/
theorem process_pdf_boundary_amended :
    (∀ env send_email,
      (∀ n, TemplateTok.field n ∈ env.subject_template → n = "filename".data) →
      env.getsizeResult.isSome →
      ∃ b, process_pdf env send_email = Except.ok b) ∧
    (∀ (e : PyStr) (s : BatchStats),
      stepStats s (outcomeOfResult (Except.error e)) = { s with failed := s.failed + 1 }) := by
  constructor
  · intro env send_email hT hS
    obtain ⟨sz, hsz⟩ := Option.isSome_iff_exists.mp hS
    obtain ⟨subj, hsubj⟩ := formatSubject_ok env.subject_template (basename env.pdf_path) hT
    unfold process_pdf
    by_cases hempty : (extract_text_from_pdf env.parsed 50).isEmpty = true
    · exact ⟨false, by simp [hempty]⟩
    · simp only [hempty, Bool.false_eq_true, if_false]
      cases hs : (summarize_text env.clientConfigured env.backend
          (extract_text_from_pdf env.parsed 50)).1 with
      | none => exact ⟨false, rfl⟩
      | some pr =>
        obtain ⟨summary, mi⟩ := pr
        cases hcfg : env.emailSenderCfg with
        | none => exact ⟨true, rfl⟩
        | some cfg =>
          cases hsend : send_email && !env.receiver_emails.isEmpty with
          | false => exact ⟨true, rfl⟩
          | true =>
            refine ⟨(EmailSender.send_email cfg env.fs env.smtp env.receiver_emails subj
              ("<html>".data ++ basename env.pdf_path ++ newlineToBr summary ++
               "</html>".data) (some [env.pdf_path])).returned, ?_⟩
            simp only [hsubj, create_email_body, hsz]
  · intro e s
    rfl

/-- C3 witness: with a well-formed template and a readable file size, the
Processor returns a boolean. -/
theorem process_pdf_boundary_witness :
    ∃ b, process_pdf goodTemplateEnv true = Except.ok b :=
  process_pdf_boundary_amended.1 goodTemplateEnv true
    (by
      intro n hn
      simp [goodTemplateEnv, fieldDateEnv] at hn
      exact hn)
    (by decide)

/-- An environment whose document parses to a single short page. -/
def shortTextEnv : ProcEnv :=
  { fieldDateEnv with parsed := some ["hi".data] }

/-- C4: whenever the extracted text strips to fewer than 100 characters
(including empty and failed extraction), the summarization client rejects
it locally — `None` result and no backend call — and `process_pdf`
reports that document failed. -/
theorem short_text_rejected_locally (env : ProcEnv) (send_email : Bool)
    (h : (pyStrip (extract_text_from_pdf env.parsed 50)).length < 100) :
    (summarize_text env.clientConfigured env.backend
        (extract_text_from_pdf env.parsed 50)).1 = none ∧
    (summarize_text env.clientConfigured env.backend
        (extract_text_from_pdf env.parsed 50)).2 = false ∧
    processCallsBackend env = false ∧
    process_pdf env send_email = Except.ok false := by
  have hsum : summarize_text env.clientConfigured env.backend
      (extract_text_from_pdf env.parsed 50) = (none, false) := by
    unfold summarize_text
    by_cases hc : env.clientConfigured = true
    · simp [hc, h]
    · simp [hc]
  refine ⟨by rw [hsum], by rw [hsum], ?_, ?_⟩
  · unfold processCallsBackend
    by_cases hempty : (extract_text_from_pdf env.parsed 50).isEmpty = true
    · simp [hempty]
    · simp [hempty, hsum]
  · unfold process_pdf
    by_cases hempty : (extract_text_from_pdf env.parsed 50).isEmpty = true
    · simp [hempty]
    · simp [hempty, hsum]

/-- C4 witness: a two-character document is rejected locally and the
document is reported failed. -/
theorem short_text_rejected_locally_witness :
    (pyStrip (extract_text_from_pdf shortTextEnv.parsed 50)).length < 100 ∧
    processCallsBackend shortTextEnv = false ∧
    process_pdf shortTextEnv true = Except.ok false :=
  ⟨by decide,
   (short_text_rejected_locally shortTextEnv true (by decide)).2.2.1,
   (short_text_rejected_locally shortTextEnv true (by decide)).2.2.2⟩

/-- C5: for an attachment whose file exists and whose basename contains a
non-ASCII character, the composed part carries disposition `attachment`
with the filename in two simultaneous forms — the RFC 2231 `filename*`
parameter holding the (percent-escaped) UTF-8 name; and the
`filename-ascii` fallback holding `urllib.parse.quote` of the name — and
decoding either form recovers exactly the UTF-8 bytes of the original
filename; hence a name ending in `.pdf` decodes to bytes ending in the
UTF-8 encoding of `.pdf`. -/
theorem attachment_filename_dual_form (fs : PyStr → Option (List Byte))
    (sender : PyStr) (receivers : List PyStr) (subject body : PyStr)
    (file_path : PyStr) (contents : List Byte)
    (hexists : fs file_path = some contents)
    (_hnonascii : ∃ c ∈ basename file_path, 128 ≤ c.toNat) :
    (buildMessage fs sender receivers subject body (some [file_path])).parts =
      [mkAttachPart file_path contents] ∧
    (mkAttachPart file_path contents).dispType = "attachment".data ∧
    (mkAttachPart file_path contents).dispParams =
      [("filename*".data, rfc2231Encode (utf8Bytes (basename file_path))),
       ("filename-ascii".data, urlQuote (utf8Bytes (basename file_path)))] ∧
    decodeRfc2231 (rfc2231Encode (utf8Bytes (basename file_path))) =
      some (utf8Bytes (basename file_path)) ∧
    percentDecode (urlQuote (utf8Bytes (basename file_path))) =
      some (utf8Bytes (basename file_path)) ∧
    (∀ stem, basename file_path = stem ++ ".pdf".data →
      utf8Bytes (basename file_path) = utf8Bytes stem ++ utf8Bytes ".pdf".data) := by
  refine ⟨?_, rfl, rfl, decodeRfc2231_rfc2231Encode _, percentDecode_urlQuote _, ?_⟩
  · simp [buildMessage, hexists]
  · intro stem hstem
    rw [hstem, utf8Bytes_append]

/-- C5 witness: the Chinese filename of the specification's example. -/
theorem attachment_filename_dual_form_witness :
    decodeRfc2231 (rfc2231Encode (utf8Bytes (basename "报告.pdf".data))) =
      some (utf8Bytes (basename "报告.pdf".data)) ∧
    percentDecode (urlQuote (utf8Bytes (basename "报告.pdf".data))) =
      some (utf8Bytes (basename "报告.pdf".data)) ∧
    utf8Bytes (basename "报告.pdf".data) =
      utf8Bytes "报告".data ++ utf8Bytes ".pdf".data :=
  ⟨(attachment_filename_dual_form (fun _ => some []) [] [] [] [] "报告.pdf".data []
      rfl (by decide)).2.2.2.1,
   (attachment_filename_dual_form (fun _ => some []) [] [] [] [] "报告.pdf".data []
      rfl (by decide)).2.2.2.2.1,
   (attachment_filename_dual_form (fun _ => some []) [] [] [] [] "报告.pdf".data []
      rfl (by decide)).2.2.2.2.2 "报告".data (by decide)⟩

/-- C6: when an attachment path exists, the part's MIME type is
`application/pdf` exactly when the basename ends in `.pdf`
case-insensitively and `application/octet-stream` otherwise, with a
payload that is the base64 encoding of the file bytes (decodable back to
them); when the path does not exist, the part is skipped and composition
and delivery are exactly those of the same call without that path. -/
theorem attachment_mime_and_skip (fs : PyStr → Option (List Byte)) (cfg : SenderCfg)
    (outcome : SmtpOutcome) (receivers : List PyStr) (subject body : PyStr) :
    (∀ file_path contents, fs file_path = some contents →
      (mkAttachPart file_path contents).maintype = "application".data ∧
      ((mkAttachPart file_path contents).subtype = "pdf".data ↔
        pyEndsWith (pyLower (basename file_path)) ".pdf".data = true) ∧
      (pyEndsWith (pyLower (basename file_path)) ".pdf".data = false →
        (mkAttachPart file_path contents).subtype = "octet-stream".data) ∧
      (mkAttachPart file_path contents).payload = base64Encode contents ∧
      base64Decode (mkAttachPart file_path contents).payload = some contents) ∧
    (∀ pre post missing, fs missing = none →
      EmailSender.send_email cfg fs outcome receivers subject body
          (some (pre ++ missing :: post)) =
        EmailSender.send_email cfg fs outcome receivers subject body
          (some (pre ++ post))) := by
  constructor
  · intro file_path contents _hfs
    refine ⟨rfl, ?_, ?_, rfl, base64Decode_base64Encode contents⟩
    · by_cases h : pyEndsWith (pyLower (basename file_path)) ".pdf".data = true
      · simp [mkAttachPart, h]
      · simp [mkAttachPart, h]
    · intro h
      simp [mkAttachPart, h]
  · intro pre post missing hmiss
    unfold EmailSender.send_email
    have hparts : (pre ++ missing :: post).filterMap
        (fun p => (fs p).map (mkAttachPart p)) =
        (pre ++ post).filterMap (fun p => (fs p).map (mkAttachPart p)) := by
      simp [List.filterMap_append, List.filterMap_cons, hmiss]
    simp [buildMessage, hparts]

/-- A small sender configuration for concrete checks. -/
def cfgW : SenderCfg :=
  { smtp_server := "s".data, smtp_port := 587, sender_email := "a@b".data
  , sender_password := "p".data, use_tls := true }

/-- A one-file filesystem: only `A.PDF` exists. -/
def fsW : PyStr → Option (List Byte) :=
  fun p => if p = "A.PDF".data then some [(1 : Byte)] else none

/-- C6 witness: the upper-case `.PDF` file gets the `pdf` MIME subtype,
and a missing second attachment leaves the delivery identical. -/
theorem attachment_mime_and_skip_witness :
    (mkAttachPart "A.PDF".data [(1 : Byte)]).subtype = "pdf".data ∧
    EmailSender.send_email cfgW fsW SmtpOutcome.completed [] [] []
        (some ["A.PDF".data, "missing".data]) =
      EmailSender.send_email cfgW fsW SmtpOutcome.completed [] [] []
        (some ["A.PDF".data]) :=
  ⟨(((attachment_mime_and_skip fsW cfgW SmtpOutcome.completed [] [] []).1
      "A.PDF".data [(1 : Byte)] (by decide)).2.1).mpr (by decide),
   (attachment_mime_and_skip fsW cfgW SmtpOutcome.completed [] [] []).2
      ["A.PDF".data] [] "missing".data (by decide)⟩

/-- C7: a `send_email` call makes exactly one delivery attempt — a
plaintext session upgraded by `starttls()` when `use_tls` holds (the
configuration's STARTTLS mode), an implicit-TLS `SMTP_SSL` session
otherwise — and returns success exactly when the exchange completed,
otherwise a failure classified as authentication, protocol, or generic
per the exception raised; there is no retry. -/
theorem transport_contract (cfg : SenderCfg) (fs : PyStr → Option (List Byte))
    (outcome : SmtpOutcome) (receivers : List PyStr) (subject body : PyStr)
    (attachments : Option (List PyStr)) (tr : SendTrace)
    (htr : tr = EmailSender.send_email cfg fs outcome receivers subject body attachments) :
    tr.sessions.length = 1 ∧
    (cfg.use_tls = true → tr.sessions = [SessionKind.plainUpgradedStartTls]) ∧
    (cfg.use_tls = false → tr.sessions = [SessionKind.implicitTls]) ∧
    tr.result = classifySmtp outcome ∧
    (tr.returned = true ↔ outcome = SmtpOutcome.completed) ∧
    (outcome = SmtpOutcome.completed →
      tr.result = SendResult.success ∧ tr.transmittedTo = receivers) ∧
    (outcome = SmtpOutcome.authException → tr.result = SendResult.authFailure) ∧
    (outcome = SmtpOutcome.smtpException → tr.result = SendResult.protocolFailure) ∧
    (outcome = SmtpOutcome.otherException → tr.result = SendResult.genericFailure) := by
  subst htr
  refine ⟨rfl, ?_, ?_, rfl, ?_, ?_, ?_, ?_, ?_⟩
  · intro h; simp [EmailSender.send_email, h]
  · intro h; simp [EmailSender.send_email, h]
  · cases outcome <;> simp [EmailSender.send_email]
  · intro h; subst h; exact ⟨rfl, rfl⟩
  · intro h; subst h; rfl
  · intro h; subst h; rfl
  · intro h; subst h; rfl

/-- C7 witness: a rejected credential is classified as an authentication
failure, over a STARTTLS session, in one attempt. -/
theorem transport_contract_witness :
    (EmailSender.send_email cfgW fsW SmtpOutcome.authException
        ["r@c".data] [] [] none).sessions.length = 1 ∧
    (EmailSender.send_email cfgW fsW SmtpOutcome.authException
        ["r@c".data] [] [] none).sessions = [SessionKind.plainUpgradedStartTls] ∧
    (EmailSender.send_email cfgW fsW SmtpOutcome.authException
        ["r@c".data] [] [] none).result = SendResult.authFailure :=
  ⟨(transport_contract cfgW fsW SmtpOutcome.authException ["r@c".data] [] [] none _ rfl).1,
   (transport_contract cfgW fsW SmtpOutcome.authException ["r@c".data] [] [] none _ rfl).2.1
     (by decide),
   ((transport_contract cfgW fsW SmtpOutcome.authException
      ["r@c".data] [] [] none _ rfl).2.2.2.2.2.2.1) rfl⟩

/-- A configuration with an API key but no relay password. -/
def relayMissingCfg : AppConfig :=
  { api_key := some "k".data, endpoint := some "e".data
  , smtp_server := some "s".data, sender_email := some "a@b".data
  , sender_password := none }

/-- C8 counterexample: with the relay credential absent but the API key
present, `main` still reaches the batch (`mainRunsBatch = true`) — only
the mailer construction is skipped — refuting "when either is absent, the
batch never starts". -/
theorem startup_gate_counterexample :
    mainRunsBatch true relayMissingCfg = true ∧
    emailSenderConfigured relayMissingCfg = false := by
  decide

/-- C8 (amended: only the summarization API key is a fatal startup check —
a missing or empty key stops `main` before the batch; missing relay
credentials merely leave `self.email_sender` unset at startup, the batch
still runs, and a successfully summarized document is then reported
success without delivery). -/
theorem startup_gate_amended :
    (∀ loaded cfg, pyTruthy cfg.api_key = false → mainRunsBatch loaded cfg = false) ∧
    (∀ cfg, mainRunsBatch true cfg = pyTruthy cfg.api_key) ∧
    (∀ env send_email, env.emailSenderCfg = none →
      (extract_text_from_pdf env.parsed 50).isEmpty = false →
      (summarize_text env.clientConfigured env.backend
          (extract_text_from_pdf env.parsed 50)).1.isSome = true →
      process_pdf env send_email = Except.ok true) := by
  refine ⟨?_, ?_, ?_⟩
  · intro loaded cfg h
    simp [mainRunsBatch, h]
  · intro cfg
    simp [mainRunsBatch]
  · intro env send_email hcfg hempty hsome
    unfold process_pdf
    simp only [hempty, Bool.false_eq_true, if_false]
    obtain ⟨pr, hpr⟩ := Option.isSome_iff_exists.mp hsome
    obtain ⟨summary, mi⟩ := pr
    rw [hpr, hcfg]

/-- An unconfigured-mailer environment that summarizes successfully. -/
def noMailerEnv : ProcEnv :=
  { fieldDateEnv with emailSenderCfg := none }

/-- C8 witness: the amended behaviour at concrete inputs. -/
theorem startup_gate_amended_witness :
    mainRunsBatch true { relayMissingCfg with api_key := none } = false ∧
    process_pdf noMailerEnv true = Except.ok true :=
  ⟨startup_gate_amended.1 true { relayMissingCfg with api_key := none } (by decide),
   startup_gate_amended.2.2 noMailerEnv true rfl (by decide) (by decide)⟩

/-- C9: extraction returns the nonempty texts of the first
`min(total_pages, cap)` pages joined by a blank line — a page yielding no
text is skipped with no placeholder; an unparsable source yields the
empty string rather than an error; and the caller `process_pdf` treats
empty text as that document's failure signal. -/
theorem extraction_contract (pages : List PyStr) (max_pages : Nat) :
    extract_text_from_pdf none max_pages = [] ∧
    extract_text_from_pdf (some pages) max_pages =
      pyJoin "\n\n".data
        ((pages.take (min pages.length max_pages)).filter (fun t => !t.isEmpty)) ∧
    (∀ env send_email, (extract_text_from_pdf env.parsed 50).isEmpty = true →
      process_pdf env send_email = Except.ok false) := by
  refine ⟨rfl, ?_, ?_⟩
  · show pyJoin "\n\n".data (collectPages pages (min pages.length max_pages)) = _
    rw [collectPages_eq_filter_take]
  · intro env send_email h
    unfold process_pdf
    simp [h]

/-- An environment whose document does not parse at all. -/
def failParseEnv : ProcEnv :=
  { fieldDateEnv with parsed := none }

/-- C9 witness: three pages, cap two, middle page empty; and an
unparsable document is reported failed by the caller. -/
theorem extraction_contract_witness :
    extract_text_from_pdf (some ["a".data, [], "b".data]) 2 =
      pyJoin "\n\n".data
        ((["a".data, [], "b".data].take (min 3 2)).filter (fun t => !t.isEmpty)) ∧
    process_pdf failParseEnv true = Except.ok false :=
  ⟨(extraction_contract ["a".data, [], "b".data] 2).2.1,
   (extraction_contract [] 50).2.2 failParseEnv true (by decide)⟩

/-- C10: `send_simple_email` is definitionally `send_email` on the same
recipients, subject and body with no attachments — every observable of
the two calls (composed message, sessions, recipients, classification,
returned boolean) coincides. -/
theorem send_simple_email_equiv (cfg : SenderCfg) (fs : PyStr → Option (List Byte))
    (outcome : SmtpOutcome) (receiver_emails : List PyStr) (subject body : PyStr) :
    EmailSender.send_simple_email cfg fs outcome receiver_emails subject body =
      EmailSender.send_email cfg fs outcome receiver_emails subject body none :=
  rfl
